import Mathlib

set_option maxHeartbeats 1000000

/-!
Verification development for the invoice extraction backend.

The definitions below are a shallow embedding of the code in
backend/app/agent.py, backend/app/config.py and backend/app/main.py.
Python dictionaries are modeled as insertion-ordered association lists of
string keys and JSON-like values; Python None and JSON null are both
JVal.null; machine integers are Int (no overflow is relevant here).
-/

namespace InvoiceAgent

/-- JSON-like values: the shape of parsed reasoning-service output and of the
aggregated record built by aggregate_results in agent.py. Dicts are modeled
as insertion-ordered association lists. -/
inductive JVal : Type where
  | null : JVal
  | bool : Bool → JVal
  | num : Int → JVal
  | str : String → JVal
  | arr : List JVal → JVal
  | obj : List (String × JVal) → JVal

/-- Python truthiness on the JSON-like values: None, False, 0, the empty
string, the empty list and the empty dict are falsy, everything else truthy. -/
def truthy : JVal → Bool
  | .null => false
  | .bool b => b
  | .num n => n != 0
  | .str s => s != ""
  | .arr xs => !xs.isEmpty
  | .obj kvs => !kvs.isEmpty

/-- Python dict.get with default None: the value stored at key k, or null when
the key is missing. -/
def dget (kvs : List (String × JVal)) (k : String) : JVal :=
  match kvs.find? (fun p => p.1 == k) with
  | some p => p.2
  | none => JVal.null

/-- Python dict assignment d[k] = v: replaces the value in place when the key
exists (keeping its position) and appends the pair at the end otherwise. -/
def dinsert (kvs : List (String × JVal)) (k : String) (v : JVal) :
    List (String × JVal) :=
  match kvs with
  | [] => [(k, v)]
  | p :: rest => if p.1 == k then (k, v) :: rest else p :: dinsert rest k v

/-- The key list of a modeled dict, in insertion order. -/
def dictKeys (kvs : List (String × JVal)) : List String :=
  kvs.map Prod.fst

/-- Attribute access item.get(k) on a JSON value that is a dict; on a
non-dict value the Python code would fail, modeled here as null. -/
def jget : JVal → String → JVal
  | .obj kvs, k => dget kvs k
  | _, _ => .null

/-- BoundingBox from schema.py: four integer pixel coordinates. -/
structure BoundingBox : Type where
  x1 : Int
  y1 : Int
  x2 : Int
  y2 : Int
deriving DecidableEq

/-- One cleaned OCR token, as consumed by filter_ocr_data_by_bbox: the fields
of a pytesseract row that the pipeline reads. -/
structure OcrToken : Type where
  text : String
  left : Int
  top : Int
  width : Int
  height : Int
  conf : Int
deriving DecidableEq

/-- filter_ocr_data_by_bbox from agent.py lines 22 to 33: with a falsy
(absent) box the result is the empty list, otherwise the list comprehension
keeps the tokens fully contained in the box, in input order. -/
def filter_ocr_data_by_bbox (ocr_data : List OcrToken)
    (bbox_dict : Option BoundingBox) : List OcrToken :=
  match bbox_dict with
  | none => []
  | some bbox =>
      ocr_data.filter (fun item =>
        decide (item.left ≥ bbox.x1 ∧ item.top ≥ bbox.y1 ∧
          item.left + item.width ≤ bbox.x2 ∧ item.top + item.height ≤ bbox.y2))

/-- Reference predicate written from the specification of the OCR Region
Filter: a token is retained iff its top-left corner lies at or after the box
top-left corner and its bottom-right corner lies at or before the box
bottom-right corner. -/
def retainSpec (b : BoundingBox) (t : OcrToken) : Prop :=
  t.left ≥ b.x1 ∧ t.top ≥ b.y1 ∧ t.left + t.width ≤ b.x2 ∧ t.top + t.height ≤ b.y2

instance (b : BoundingBox) (t : OcrToken) : Decidable (retainSpec b t) := by
  unfold retainSpec
  infer_instance

/-- One raw row of the pytesseract image_to_data DATAFRAME output, before
cleaning: every column may be missing (NaN), modeled as Option. -/
structure RawOcrRow : Type where
  level : Option Int
  page_num : Option Int
  block_num : Option Int
  par_num : Option Int
  line_num : Option Int
  word_num : Option Int
  left : Option Int
  top : Option Int
  width : Option Int
  height : Option Int
  conf : Option Int
  text : Option String
deriving DecidableEq

/-- A raw row with no missing column, the rows pandas dropna keeps. -/
def complete (r : RawOcrRow) : Bool :=
  r.level.isSome && r.page_num.isSome && r.block_num.isSome &&
  r.par_num.isSome && r.line_num.isSome && r.word_num.isSome &&
  r.left.isSome && r.top.isSome && r.width.isSome && r.height.isSome &&
  r.conf.isSome && r.text.isSome

/-- The row post-processing of extract_structured_ocr in agent.py lines 49 to
58: ocr_df.dropna() followed by ocr_df[ocr_df.conf != -1]. -/
def extract_structured_ocr (rows : List RawOcrRow) : List RawOcrRow :=
  (rows.filter (fun r => complete r)).filter (fun r => r.conf != some (-1))

/-- Total projection of a cleaned row to the token record read downstream;
the defaults are never used on complete rows. -/
def rowToToken (r : RawOcrRow) : OcrToken :=
  { text := r.text.getD "", left := r.left.getD 0, top := r.top.getD 0,
    width := r.width.getD 0, height := r.height.getD 0, conf := r.conf.getD 0 }

/-- C2: the OCR Region Filter equals the reference definition: an absent box
yields the empty list for every token list; a present box retains exactly the
fully contained tokens, preserving input order (the result is the filter of
the input by the containment predicate, hence a sublist). The embedding is a
pure function, so freedom from side effects holds by construction. -/
theorem c2_region_filter (toks : List OcrToken) (b : BoundingBox) :
    filter_ocr_data_by_bbox toks none = [] ∧
    filter_ocr_data_by_bbox toks (some b) =
      toks.filter (fun t => decide (retainSpec b t)) ∧
    (∀ t, t ∈ filter_ocr_data_by_bbox toks (some b) ↔ t ∈ toks ∧ retainSpec b t) ∧
    (filter_ocr_data_by_bbox toks (some b)).Sublist toks := by
  refine ⟨rfl, rfl, ?_, ?_⟩
  · intro t
    simp only [filter_ocr_data_by_bbox, List.mem_filter, decide_eq_true_eq,
      retainSpec]
  · exact List.filter_sublist toks

/-- C3: the OCR tokenizer post-processing drops every row with a missing
column and every row whose confidence is exactly -1, keeps every complete row
whose confidence is zero or positive, and keeps the surviving rows in the
original engine order (the output is a sublist of the input). -/
theorem c3_ocr_postprocess (rows : List RawOcrRow) :
    extract_structured_ocr rows =
      rows.filter (fun r => complete r && r.conf != some (-1)) ∧
    (∀ r ∈ extract_structured_ocr rows, complete r = true ∧ r.conf ≠ some (-1)) ∧
    (∀ r ∈ rows, complete r = true → (∃ c, r.conf = some c ∧ 0 ≤ c) →
      r ∈ extract_structured_ocr rows) ∧
    (extract_structured_ocr rows).Sublist rows := by
  refine ⟨?_, ?_, ?_, ?_⟩
  · rw [extract_structured_ocr, List.filter_filter]
    exact List.filter_congr (fun r _ => Bool.and_comm _ _)
  · intro r hr
    simp only [extract_structured_ocr, List.mem_filter] at hr
    refine ⟨hr.1.2, ?_⟩
    simpa using hr.2
  · intro r hr hc ⟨c, hcs, hcn⟩
    simp only [extract_structured_ocr, List.mem_filter]
    refine ⟨⟨hr, hc⟩, ?_⟩
    simp [hcs]
    omega
  · exact (List.filter_sublist _).trans (List.filter_sublist rows)

/-- Witness for c3_ocr_postprocess: on a concrete table of one complete row
with confidence 90 and one row with confidence -1, the complete positive row
is retained. -/
theorem c3_ocr_postprocess_witness :
    (⟨some 1, some 1, some 1, some 1, some 1, some 1, some 0, some 0,
      some 5, some 5, some 90, some "A"⟩ : RawOcrRow) ∈
      extract_structured_ocr
        [⟨some 1, some 1, some 1, some 1, some 1, some 1, some 0, some 0,
          some 5, some 5, some 90, some "A"⟩,
         ⟨some 1, some 1, some 1, some 1, some 1, some 1, some 0, some 0,
          some 5, some 5, some (-1), some ""⟩] :=
  (c3_ocr_postprocess _).2.2.1 _ (by decide) (by decide) ⟨90, by decide, by decide⟩

/-- The body of the header and summary loops of aggregate_results in agent.py
lines 194 to 206: a field is copied into the record iff its value is truthy. -/
def truthy_step (acc : List (String × JVal)) (fv : String × JVal) :
    List (String × JVal) :=
  if truthy fv.2 then dinsert acc fv.1 fv.2 else acc

/-- One of the two guarded copy loops of aggregate_results: when the stage
result is a truthy dict, every truthy field of it is assigned into the
record, in iteration order. -/
def processDict (o : Option (List (String × JVal)))
    (final_data : List (String × JVal)) : List (String × JVal) :=
  match o with
  | some d => if truthy (JVal.obj d) then d.foldl truthy_step final_data
              else final_data
  | none => final_data

/-- The per-item dict comprehension of aggregate_results in agent.py lines
211 to 220: a fresh dict with exactly the five item keys, each read with
item.get (null when the extractor omitted the field). -/
def item_project (item : JVal) : JVal :=
  .obj [("description", jget item "description"),
        ("quantity", jget item "quantity"),
        ("unit_price", jget item "unit_price"),
        ("total_price", jget item "total_price"),
        ("bbox", jget item "bbox")]

/-- The line_items branch of aggregate_results in agent.py lines 208 to 222:
when the line-items result and its line_items list are both truthy, the list
is copied item by item through the five-key projection, otherwise line_items
is the empty list. A truthy non-list value under the line_items key is
outside the structured shape the parser produces and is modeled as empty. -/
def line_items_value (line_items_data : Option (List (String × JVal))) : JVal :=
  match line_items_data with
  | some l =>
      match dget l "line_items" with
      | .arr items =>
          if truthy (JVal.obj l) && truthy (JVal.arr items) then
            .arr (items.map item_project)
          else .arr []
      | _ => .arr []
  | none => .arr []

/-- aggregate_results from agent.py lines 188 to 224: starting from an empty
record, copy the truthy header fields, then the truthy summary fields, then
always assign the line_items key. -/
def aggregate_results (header summary line_items_data :
    Option (List (String × JVal))) : List (String × JVal) :=
  dinsert (processDict summary (processDict header []))
    "line_items" (line_items_value line_items_data)

lemma mem_dictKeys_dinsert (d : List (String × JVal)) (k : String) (v : JVal)
    (q : String) : q ∈ dictKeys (dinsert d k v) ↔ q ∈ dictKeys d ∨ q = k := by
  induction d with
  | nil => simp [dinsert, dictKeys]
  | cons p rest ih =>
      by_cases hp : p.1 = k
      · simp [dinsert, hp, dictKeys]
        tauto
      · simp only [dinsert, beq_iff_eq, hp, if_false, dictKeys, List.map_cons,
          List.mem_cons]
        rw [show (dinsert rest k v).map Prod.fst = dictKeys (dinsert rest k v)
          from rfl, ih]
        simp [dictKeys]
        tauto

lemma dget_dinsert_self (d : List (String × JVal)) (k : String) (v : JVal) :
    dget (dinsert d k v) k = v := by
  induction d with
  | nil => simp [dinsert, dget, List.find?]
  | cons p rest ih =>
      by_cases hp : p.1 = k
      · simp [dinsert, hp, dget, List.find?]
      · have hb : (p.1 == k) = false := beq_eq_false_iff_ne.mpr hp
        simp only [dinsert, beq_iff_eq, hp, if_false]
        simpa [dget, List.find?, hb] using ih

lemma mem_dictKeys_foldl (pairs : List (String × JVal))
    (acc : List (String × JVal)) (q : String) :
    q ∈ dictKeys (pairs.foldl truthy_step acc) ↔
      q ∈ dictKeys acc ∨ ∃ v, (q, v) ∈ pairs ∧ truthy v = true := by
  induction pairs generalizing acc with
  | nil => simp
  | cons fv rest ih =>
      rw [List.foldl_cons, ih]
      by_cases h : truthy fv.2
      · have hstep : truthy_step acc fv = dinsert acc fv.1 fv.2 := by
          rw [truthy_step, if_pos h]
        rw [hstep, mem_dictKeys_dinsert]
        constructor
        · rintro ((ha | hq) | ⟨v, hv, ht⟩)
          · exact Or.inl ha
          · exact Or.inr ⟨fv.2, List.mem_cons.mpr (Or.inl (by rw [hq])), h⟩
          · exact Or.inr ⟨v, List.mem_cons_of_mem _ hv, ht⟩
        · rintro (ha | ⟨v, hv, ht⟩)
          · exact Or.inl (Or.inl ha)
          · rcases List.mem_cons.mp hv with hv | hv
            · exact Or.inl (Or.inr (congrArg Prod.fst hv))
            · exact Or.inr ⟨v, hv, ht⟩
      · have hstep : truthy_step acc fv = acc := by
          rw [truthy_step, if_neg h]
        rw [hstep]
        constructor
        · rintro (ha | ⟨v, hv, ht⟩)
          · exact Or.inl ha
          · exact Or.inr ⟨v, List.mem_cons_of_mem _ hv, ht⟩
        · rintro (ha | ⟨v, hv, ht⟩)
          · exact Or.inl ha
          · rcases List.mem_cons.mp hv with hv | hv
            · have hveq : v = fv.2 := congrArg Prod.snd hv
              rw [hveq] at ht
              exact absurd ht h
            · exact Or.inr ⟨v, hv, ht⟩

lemma mem_dictKeys_processDict (o : Option (List (String × JVal)))
    (fd : List (String × JVal)) (q : String) :
    q ∈ dictKeys (processDict o fd) ↔
      q ∈ dictKeys fd ∨ ∃ v, (q, v) ∈ o.getD [] ∧ truthy v = true := by
  cases o with
  | none => simp [processDict]
  | some d =>
      by_cases hd : d.isEmpty
      · rw [List.isEmpty_iff] at hd
        subst hd
        simp [processDict, truthy]
      · simp only [processDict, truthy, Option.getD_some]
        rw [if_pos (by simpa using hd)]
        exact mem_dictKeys_foldl d fd q

/-- C4: the key set of the aggregated record is exactly the truthy (non-null)
fields of the header result, the truthy fields of the summary result, and the
always-present line_items key, which holds the empty list when the line-items
result is absent or its list is empty. The well-formedness hypotheses say
each stage field is either null (absent) or a truthy value, the shape the
structured parser produces. -/
theorem c4_aggregate_key_union (h s l : Option (List (String × JVal)))
    (hWf : ∀ p ∈ h.getD [], p.2 = JVal.null ∨ truthy p.2 = true)
    (sWf : ∀ p ∈ s.getD [], p.2 = JVal.null ∨ truthy p.2 = true) :
    (∀ k, k ∈ dictKeys (aggregate_results h s l) ↔
      ((∃ v, (k, v) ∈ h.getD [] ∧ v ≠ JVal.null) ∨
       (∃ v, (k, v) ∈ s.getD [] ∧ v ≠ JVal.null) ∨ k = "line_items")) ∧
    ((l = none ∨ ∃ ld, l = some ld ∧ dget ld "line_items" = JVal.arr []) →
      dget (aggregate_results h s l) "line_items" = JVal.arr []) ∧
    "line_items" ∈ dictKeys (aggregate_results h s l) := by
  have keyiff : ∀ k, k ∈ dictKeys (aggregate_results h s l) ↔
      ((∃ v, (k, v) ∈ h.getD [] ∧ v ≠ JVal.null) ∨
       (∃ v, (k, v) ∈ s.getD [] ∧ v ≠ JVal.null) ∨ k = "line_items") := by
    intro k
    have hconv : ∀ (o : Option (List (String × JVal))),
        (∀ p ∈ o.getD [], p.2 = JVal.null ∨ truthy p.2 = true) →
        ((∃ v, (k, v) ∈ o.getD [] ∧ truthy v = true) ↔
         (∃ v, (k, v) ∈ o.getD [] ∧ v ≠ JVal.null)) := by
      intro o oWf
      constructor
      · rintro ⟨v, hv, ht⟩
        refine ⟨v, hv, ?_⟩
        intro hn
        rw [hn] at ht
        simp [truthy] at ht
      · rintro ⟨v, hv, hn⟩
        refine ⟨v, hv, ?_⟩
        rcases oWf (k, v) hv with h0 | h0
        · exact absurd h0 hn
        · exact h0
    rw [aggregate_results, mem_dictKeys_dinsert, mem_dictKeys_processDict,
      mem_dictKeys_processDict, hconv h hWf, hconv s sWf]
    simp only [dictKeys, List.map_nil, List.not_mem_nil, false_or]
    rw [or_assoc]
  refine ⟨keyiff, ?_, ?_⟩
  · intro hl
    rw [aggregate_results, dget_dinsert_self]
    rcases hl with rfl | ⟨ld, rfl, hld⟩
    · rfl
    · simp [line_items_value, hld, truthy]
  · exact (keyiff "line_items").mpr (Or.inr (Or.inr rfl))

/-- Witness for c4_aggregate_key_union: a concrete header with one field, a
concrete summary with one field and an absent line-items result yield a
record that has the invoice_number key and an empty line_items list. -/
theorem c4_aggregate_key_union_witness :
    "invoice_number" ∈ dictKeys (aggregate_results
      (some [("invoice_number", JVal.obj [("value", JVal.str "V1")])])
      (some [("total_amount", JVal.obj [("value", JVal.num 2)])]) none) ∧
    dget (aggregate_results
      (some [("invoice_number", JVal.obj [("value", JVal.str "V1")])])
      (some [("total_amount", JVal.obj [("value", JVal.num 2)])]) none)
      "line_items" = JVal.arr [] := by
  have hw := c4_aggregate_key_union
    (some [("invoice_number", JVal.obj [("value", JVal.str "V1")])])
    (some [("total_amount", JVal.obj [("value", JVal.num 2)])]) none
    (by intro p hp
        rw [Option.getD_some, List.mem_singleton] at hp
        subst hp
        exact Or.inr rfl)
    (by intro p hp
        rw [Option.getD_some, List.mem_singleton] at hp
        subst hp
        exact Or.inr rfl)
  refine ⟨(hw.1 "invoice_number").mpr ?_, hw.2.1 (Or.inl rfl)⟩
  exact Or.inl ⟨JVal.obj [("value", JVal.str "V1")], List.mem_singleton.mpr rfl,
    by intro hc; cases hc⟩

lemma dget_eq_null_of_not_mem (kvs : List (String × JVal)) (k : String)
    (h : k ∉ dictKeys kvs) : dget kvs k = JVal.null := by
  have hf : kvs.find? (fun p => p.1 == k) = none := by
    rw [List.find?_eq_none]
    intro p hp
    simp only [beq_iff_eq]
    intro hc
    exact h (hc ▸ List.mem_map_of_mem Prod.fst hp)
  simp only [dget, hf]

lemma aggregate_line_items_nonempty (h s : Option (List (String × JVal)))
    (ld : List (String × JVal)) (items : List JVal)
    (hget : dget ld "line_items" = JVal.arr items) (hl : ld ≠ [])
    (hne : items ≠ []) :
    dget (aggregate_results h s (some ld)) "line_items" =
      JVal.arr (items.map item_project) := by
  rw [aggregate_results, dget_dinsert_self]
  simp only [line_items_value]
  rw [hget]
  have hcond : (truthy (JVal.obj ld) && truthy (JVal.arr items)) = true := by
    simp [truthy, List.isEmpty_iff, hl, hne]
  show (if (truthy (JVal.obj ld) && truthy (JVal.arr items)) = true
      then JVal.arr (items.map item_project) else JVal.arr []) =
    JVal.arr (items.map item_project)
  rw [if_pos hcond]

/-- C9: when the line-items result is present with a non-empty list, the
aggregated line_items value is the item-by-item projection of that list:
same length, same order, and the five per-item fields read verbatim from each
extractor item. -/
theorem c9_line_items_verbatim (h s : Option (List (String × JVal)))
    (ld : List (String × JVal)) (items : List JVal)
    (hget : dget ld "line_items" = JVal.arr items) (hl : ld ≠ [])
    (hne : items ≠ []) :
    dget (aggregate_results h s (some ld)) "line_items" =
      JVal.arr (items.map item_project) ∧
    (items.map item_project).length = items.length ∧
    (∀ item ∈ items,
      ∀ k ∈ (["description", "quantity", "unit_price", "total_price",
              "bbox"] : List String),
        jget (item_project item) k = jget item k) := by
  refine ⟨aggregate_line_items_nonempty h s ld items hget hl hne,
    List.length_map items item_project, ?_⟩
  intro item _ k hk
  simp only [List.mem_cons, List.mem_singleton, List.not_mem_nil,
    or_false] at hk
  rcases hk with rfl | rfl | rfl | rfl | rfl
  · rfl
  · rfl
  · rfl
  · rfl
  · rfl

/-- Witness for c9_line_items_verbatim: a two-item list is copied in order
through the five-key projection. -/
theorem c9_line_items_verbatim_witness :
    dget (aggregate_results none none (some [("line_items",
      JVal.arr [JVal.obj [("description", JVal.obj [("value", JVal.str "a")])],
                JVal.obj []])])) "line_items" =
    JVal.arr
      [item_project (JVal.obj [("description", JVal.obj [("value", JVal.str "a")])]),
       item_project (JVal.obj [])] :=
  (c9_line_items_verbatim none none
    [("line_items",
      JVal.arr [JVal.obj [("description", JVal.obj [("value", JVal.str "a")])],
                JVal.obj []])]
    [JVal.obj [("description", JVal.obj [("value", JVal.str "a")])],
     JVal.obj []]
    rfl (List.cons_ne_nil _ _) (List.cons_ne_nil _ _)).1

/-- C10: every aggregated line item is a record with exactly the five item
keys; a field the extractor omitted appears with a null value, and any extra
key of the extractor item is dropped. -/
theorem c10_item_fields (h s : Option (List (String × JVal)))
    (ld : List (String × JVal)) (items : List (List (String × JVal)))
    (hget : dget ld "line_items" = JVal.arr (items.map JVal.obj))
    (hl : ld ≠ []) (hne : items ≠ []) :
    dget (aggregate_results h s (some ld)) "line_items" =
      JVal.arr ((items.map JVal.obj).map item_project) ∧
    ∀ kvs ∈ items, ∃ out, item_project (JVal.obj kvs) = JVal.obj out ∧
      dictKeys out = ["description", "quantity", "unit_price", "total_price",
        "bbox"] ∧
      (∀ k v, (k, v) ∈ out → v = dget kvs k) ∧
      (∀ k, k ∈ dictKeys out → k ∉ dictKeys kvs → dget out k = JVal.null) := by
  refine ⟨aggregate_line_items_nonempty h s ld _ hget hl
    (by intro hc; exact hne (by simpa using congrArg List.length hc)), ?_⟩
  intro kvs _
  refine ⟨[("description", dget kvs "description"),
           ("quantity", dget kvs "quantity"),
           ("unit_price", dget kvs "unit_price"),
           ("total_price", dget kvs "total_price"),
           ("bbox", dget kvs "bbox")], rfl, rfl, ?_, ?_⟩
  · intro k v hv
    simp only [List.mem_cons, List.mem_singleton, List.not_mem_nil, or_false,
      Prod.mk.injEq] at hv
    rcases hv with ⟨rfl, rfl⟩ | ⟨rfl, rfl⟩ | ⟨rfl, rfl⟩ | ⟨rfl, rfl⟩ | ⟨rfl, rfl⟩
    · rfl
    · rfl
    · rfl
    · rfl
    · rfl
  · intro k hk hnk
    simp only [dictKeys, List.map_cons, List.map_nil, List.mem_cons,
      List.mem_singleton, List.not_mem_nil, or_false] at hk
    rcases hk with rfl | rfl | rfl | rfl | rfl
    · exact dget_eq_null_of_not_mem kvs "description" hnk
    · exact dget_eq_null_of_not_mem kvs "quantity" hnk
    · exact dget_eq_null_of_not_mem kvs "unit_price" hnk
    · exact dget_eq_null_of_not_mem kvs "total_price" hnk
    · exact dget_eq_null_of_not_mem kvs "bbox" hnk

/-- Witness for c10_item_fields: an item with one known field and one extra
field projects to exactly the five keys, with the extra key dropped. -/
theorem c10_item_fields_witness :
    ∃ out, item_project (JVal.obj [("description", JVal.str "x"),
        ("extra", JVal.num 1)]) = JVal.obj out ∧
      dictKeys out = ["description", "quantity", "unit_price", "total_price",
        "bbox"] ∧
      (∀ k v, (k, v) ∈ out →
        v = dget [("description", JVal.str "x"), ("extra", JVal.num 1)] k) ∧
      (∀ k, k ∈ dictKeys out →
        k ∉ dictKeys [("description", JVal.str "x"), ("extra", JVal.num 1)] →
        dget out k = JVal.null) :=
  ((c10_item_fields none none
      [("line_items", JVal.arr [JVal.obj [("description", JVal.str "x"),
        ("extra", JVal.num 1)]])]
      [[("description", JVal.str "x"), ("extra", JVal.num 1)]]
      rfl (List.cons_ne_nil _ _) (List.cons_ne_nil _ _)).2 _
    (List.mem_singleton.mpr rfl))

/-- The parsed AreasOfInterest payload used by the extractor stages: each
area read with .get on the parsed dict; a missing, null or otherwise falsy
area and an area whose box parsed are modeled as none and some box. -/
structure Aoi : Type where
  header_area : Option BoundingBox
  line_items_area : Option BoundingBox
  summary_area : Option BoundingBox
deriving DecidableEq

/-- The empty dict decide_aoi substitutes on a parse failure: every area
absent. -/
def Aoi.empty : Aoi := ⟨none, none, none⟩

/-- GraphState from agent.py lines 37 to 45, without the opaque image bytes
(the environment supplies the OCR table the image produces). Fields not yet
written by a stage hold their never-read defaults. -/
structure GraphState : Type where
  ocr_data : List OcrToken
  areas_of_interest : Aoi
  extracted_header : Option (List (String × JVal))
  extracted_line_items : Option (List (String × JVal))
  extracted_summary : Option (List (String × JVal))
  extracted_data : List (String × JVal)

/-- The initial state of one pipeline run. -/
def initialState : GraphState :=
  { ocr_data := [], areas_of_interest := Aoi.empty, extracted_header := none,
    extracted_line_items := none, extracted_summary := none,
    extracted_data := [] }

/-- The partial-state update one stage returns: exactly the one field that
stage contributes, as in the Python dicts returned by the six node
functions. -/
inductive StageOut : Type where
  | ocrOut : List OcrToken → StageOut
  | aoiOut : Aoi → StageOut
  | headerOut : Option (List (String × JVal)) → StageOut
  | litemsOut : Option (List (String × JVal)) → StageOut
  | summaryOut : Option (List (String × JVal)) → StageOut
  | aggOut : List (String × JVal) → StageOut

/-- The orchestrator merge of a partial stage result into the running
state. -/
def applyOut : StageOut → GraphState → GraphState
  | .ocrOut d, st => { st with ocr_data := d }
  | .aoiOut a, st => { st with areas_of_interest := a }
  | .headerOut d, st => { st with extracted_header := d }
  | .litemsOut d, st => { st with extracted_line_items := d }
  | .summaryOut d, st => { st with extracted_summary := d }
  | .aggOut d, st => { st with extracted_data := d }

/-- The external world of one run: the OCR table the engine produces for the
uploaded image (decoding assumed to succeed, the case the claims are about)
and, for each reasoning-service call, either the parsed structured output or
a structured-output parse failure, as a function of the token list the stage
passes. -/
structure Env : Type where
  ocrRows : List RawOcrRow
  aoiResp : List OcrToken → Except Unit Aoi
  headerResp : List OcrToken → Except Unit (List (String × JVal))
  litemsResp : List OcrToken → Except Unit (List (String × JVal))
  summaryResp : List OcrToken → Except Unit (List (String × JVal))

/-- Stage 1, extract_structured_ocr as a node: clean the engine rows and
write ocr_data. Makes no reasoning-service call. -/
def extract_structured_ocr_node (env : Env) (_st : GraphState) :
    StageOut × List String :=
  (.ocrOut ((extract_structured_ocr env.ocrRows).map rowToToken), [])

/-- The areas decide_aoi ends with: the parsed response, or the empty dict
when the response cannot be parsed (agent.py lines 83 to 88). -/
def decide_aoi_areas (env : Env) (st : GraphState) : Aoi :=
  match env.aoiResp st.ocr_data with
  | .ok areas => areas
  | .error _ => Aoi.empty

/-- Stage 2, decide_aoi as a node: always one reasoning-service call. -/
def decide_aoi_node (env : Env) (st : GraphState) : StageOut × List String :=
  (.aoiOut (decide_aoi_areas env st), ["decide_aoi"])

/-- The header result of extract_header_data (agent.py lines 90 to 122):
absent when the header area is absent, otherwise the parsed service response
on the region-filtered tokens, or absent on a parse failure. -/
def extract_header_result (env : Env) (st : GraphState) :
    Option (List (String × JVal)) :=
  match st.areas_of_interest.header_area with
  | none => none
  | some area =>
      match env.headerResp
          (filter_ocr_data_by_bbox st.ocr_data (some area)) with
      | .ok d => some d
      | .error _ => none

/-- The reasoning-service calls extract_header_data makes: none when the
header area is absent, one otherwise. -/
def extract_header_calls (st : GraphState) : List String :=
  match st.areas_of_interest.header_area with
  | none => []
  | some _ => ["extract_header_data"]

/-- Stage 3, extract_header_data as a node. -/
def extract_header_data_node (env : Env) (st : GraphState) :
    StageOut × List String :=
  (.headerOut (extract_header_result env st), extract_header_calls st)

/-- The line-items result of extract_line_items_data (agent.py lines 124 to
155), same shape as the header stage. -/
def extract_line_items_result (env : Env) (st : GraphState) :
    Option (List (String × JVal)) :=
  match st.areas_of_interest.line_items_area with
  | none => none
  | some area =>
      match env.litemsResp
          (filter_ocr_data_by_bbox st.ocr_data (some area)) with
      | .ok d => some d
      | .error _ => none

/-- The reasoning-service calls extract_line_items_data makes. -/
def extract_line_items_calls (st : GraphState) : List String :=
  match st.areas_of_interest.line_items_area with
  | none => []
  | some _ => ["extract_line_items_data"]

/-- Stage 4, extract_line_items_data as a node. -/
def extract_line_items_data_node (env : Env) (st : GraphState) :
    StageOut × List String :=
  (.litemsOut (extract_line_items_result env st), extract_line_items_calls st)

/-- The summary result of extract_summary_data (agent.py lines 157 to 186),
same shape as the header stage. -/
def extract_summary_result (env : Env) (st : GraphState) :
    Option (List (String × JVal)) :=
  match st.areas_of_interest.summary_area with
  | none => none
  | some area =>
      match env.summaryResp
          (filter_ocr_data_by_bbox st.ocr_data (some area)) with
      | .ok d => some d
      | .error _ => none

/-- The reasoning-service calls extract_summary_data makes. -/
def extract_summary_calls (st : GraphState) : List String :=
  match st.areas_of_interest.summary_area with
  | none => []
  | some _ => ["extract_summary_data"]

/-- Stage 5, extract_summary_data as a node. -/
def extract_summary_data_node (env : Env) (st : GraphState) :
    StageOut × List String :=
  (.summaryOut (extract_summary_result env st), extract_summary_calls st)

/-- Stage 6, aggregate_results as a node: pure merge of the three stage
results, no reasoning-service call. -/
def aggregate_results_node (_env : Env) (st : GraphState) :
    StageOut × List String :=
  (.aggOut (aggregate_results st.extracted_header st.extracted_summary
    st.extracted_line_items), [])

/-- The node table of the workflow, agent.py lines 230 to 235. -/
def runNode (env : Env) (st : GraphState) :
    String → Option (StageOut × List String)
  | "extract_structured_ocr" => some (extract_structured_ocr_node env st)
  | "decide_aoi" => some (decide_aoi_node env st)
  | "extract_header_data" => some (extract_header_data_node env st)
  | "extract_line_items_data" => some (extract_line_items_data_node env st)
  | "extract_summary_data" => some (extract_summary_data_node env st)
  | "aggregate_results" => some (aggregate_results_node env st)
  | _ => none

/-- The edge list of the workflow, agent.py lines 238 to 244; END is the
terminal marker. -/
def workflow_edges : List (String × String) :=
  [("extract_structured_ocr", "decide_aoi"),
   ("decide_aoi", "extract_header_data"),
   ("extract_header_data", "extract_line_items_data"),
   ("extract_line_items_data", "extract_summary_data"),
   ("extract_summary_data", "aggregate_results"),
   ("aggregate_results", "END")]

/-- The entry point of the workflow, agent.py line 238. -/
def entry_point : String := "extract_structured_ocr"

/-- The stage node names in pipeline order. -/
def stage_names : List String :=
  ["extract_structured_ocr", "decide_aoi", "extract_header_data",
   "extract_line_items_data", "extract_summary_data", "aggregate_results"]

/-- One pass of the compiled graph from a given node: run the node, merge its
partial result, follow the unique outgoing edge, and record the emitted
stage-keyed event and the reasoning-service calls. Fuel bounds the walk; the
graph is a finite chain so the fuel below never runs out. -/
def streamAux (env : Env) : Nat → String → GraphState →
    List (String × StageOut) × List String
  | 0, _, _ => ([], [])
  | Nat.succ fuel, node, st =>
      match runNode env st node with
      | none => ([], [])
      | some (out, calls) =>
          match workflow_edges.lookup node with
          | none => ([(node, out)], calls)
          | some next =>
              let rest := streamAux env fuel next (applyOut out st)
              ((node, out) :: rest.1, calls ++ rest.2)

/-- run_agent_stream from agent.py lines 259 to 266: the lazily produced
sequence of stage-keyed update events of one streamed run. -/
def run_agent_stream (env : Env) : List (String × StageOut) :=
  (streamAux env (workflow_edges.length + 1) entry_point initialState).1

/-- The reasoning-service calls one run makes, in order. -/
def agent_calls (env : Env) : List String :=
  (streamAux env (workflow_edges.length + 1) entry_point initialState).2

/-- run_agent from agent.py lines 250 to 257: the extracted_data field of the
final state of a run-to-completion invocation. -/
def run_agent (env : Env) : List (String × JVal) :=
  ((run_agent_stream env).foldl (fun st e => applyOut e.2 st)
    initialState).extracted_data

/-- The cleaned token list of a run, state-free closed form. -/
def pipelineTokens (env : Env) : List OcrToken :=
  (extract_structured_ocr env.ocrRows).map rowToToken

/-- The areas of interest of a run, state-free closed form. -/
def pipelineAoi (env : Env) : Aoi :=
  match env.aoiResp (pipelineTokens env) with
  | .ok areas => areas
  | .error _ => Aoi.empty

/-- The header result of a run, state-free closed form. -/
def pipelineHeader (env : Env) : Option (List (String × JVal)) :=
  match (pipelineAoi env).header_area with
  | none => none
  | some area =>
      match env.headerResp
          (filter_ocr_data_by_bbox (pipelineTokens env) (some area)) with
      | .ok d => some d
      | .error _ => none

/-- The line-items result of a run, state-free closed form. -/
def pipelineLitems (env : Env) : Option (List (String × JVal)) :=
  match (pipelineAoi env).line_items_area with
  | none => none
  | some area =>
      match env.litemsResp
          (filter_ocr_data_by_bbox (pipelineTokens env) (some area)) with
      | .ok d => some d
      | .error _ => none

/-- The summary result of a run, state-free closed form. -/
def pipelineSummary (env : Env) : Option (List (String × JVal)) :=
  match (pipelineAoi env).summary_area with
  | none => none
  | some area =>
      match env.summaryResp
          (filter_ocr_data_by_bbox (pipelineTokens env) (some area)) with
      | .ok d => some d
      | .error _ => none

/-- The aggregated record of a run, state-free closed form. -/
def pipelineAgg (env : Env) : List (String × JVal) :=
  aggregate_results (pipelineHeader env) (pipelineSummary env)
    (pipelineLitems env)

lemma run_agent_stream_spec (env : Env) :
    run_agent_stream env =
      [("extract_structured_ocr", StageOut.ocrOut (pipelineTokens env)),
       ("decide_aoi", StageOut.aoiOut (pipelineAoi env)),
       ("extract_header_data", StageOut.headerOut (pipelineHeader env)),
       ("extract_line_items_data", StageOut.litemsOut (pipelineLitems env)),
       ("extract_summary_data", StageOut.summaryOut (pipelineSummary env)),
       ("aggregate_results", StageOut.aggOut (pipelineAgg env))] :=
  rfl

lemma agent_calls_spec (env : Env) :
    agent_calls env =
      "decide_aoi" ::
        (extract_header_calls (applyOut (StageOut.aoiOut (pipelineAoi env))
          (applyOut (StageOut.ocrOut (pipelineTokens env)) initialState)) ++
         (extract_line_items_calls (applyOut (StageOut.aoiOut (pipelineAoi env))
          (applyOut (StageOut.ocrOut (pipelineTokens env)) initialState)) ++
          (extract_summary_calls (applyOut (StageOut.aoiOut (pipelineAoi env))
            (applyOut (StageOut.ocrOut (pipelineTokens env)) initialState)) ++
            []))) :=
  rfl

/-- C1: for every run whose OCR step succeeds (the environment supplies the
decoded token table; a decoding failure is the fatal case excluded by the
claim), the streaming mode emits exactly six stage-keyed events in the fixed
workflow order, and each event carries exactly the partial-state field its
stage contributes: the cleaned tokens, the areas, the three stage results and
the aggregated record. -/
theorem c1_stream_six_events (env : Env) :
    run_agent_stream env =
      [("extract_structured_ocr", StageOut.ocrOut (pipelineTokens env)),
       ("decide_aoi", StageOut.aoiOut (pipelineAoi env)),
       ("extract_header_data", StageOut.headerOut (pipelineHeader env)),
       ("extract_line_items_data", StageOut.litemsOut (pipelineLitems env)),
       ("extract_summary_data", StageOut.summaryOut (pipelineSummary env)),
       ("aggregate_results", StageOut.aggOut (pipelineAgg env))] ∧
    (run_agent_stream env).map Prod.fst = stage_names := by
  refine ⟨run_agent_stream_spec env, ?_⟩
  rw [run_agent_stream_spec]
  rfl

/-- C5: when the region locator yields all three areas absent, the three
field extractors return absent results, the only reasoning-service call of
the whole run is the locator call itself, and the run still reaches the
aggregation stage, whose event carries exactly the record with the single
line_items key holding the empty list. -/
theorem c5_all_areas_absent (env : Env) (h : pipelineAoi env = Aoi.empty) :
    pipelineHeader env = none ∧ pipelineLitems env = none ∧
    pipelineSummary env = none ∧ agent_calls env = ["decide_aoi"] ∧
    (run_agent_stream env).getLast? =
      some ("aggregate_results",
        StageOut.aggOut [("line_items", JVal.arr [])]) := by
  have hh : pipelineHeader env = none := by
    unfold pipelineHeader
    rw [h]
    rfl
  have hl : pipelineLitems env = none := by
    unfold pipelineLitems
    rw [h]
    rfl
  have hs : pipelineSummary env = none := by
    unfold pipelineSummary
    rw [h]
    rfl
  refine ⟨hh, hl, hs, ?_, ?_⟩
  · rw [agent_calls_spec, h]
    rfl
  · rw [run_agent_stream_spec]
    have hagg : pipelineAgg env = [("line_items", JVal.arr [])] := by
      rw [pipelineAgg, hh, hl, hs]
      rfl
    rw [hagg]
    rfl

/-- Witness for c5_all_areas_absent: with a locator that returns all areas
absent, the concrete run makes exactly the one locator call. -/
theorem c5_all_areas_absent_witness :
    agent_calls
      { ocrRows := [], aoiResp := fun _ => Except.ok Aoi.empty,
        headerResp := fun _ => Except.ok [],
        litemsResp := fun _ => Except.ok [],
        summaryResp := fun _ => Except.ok [] } = ["decide_aoi"] :=
  (c5_all_areas_absent
    { ocrRows := [], aoiResp := fun _ => Except.ok Aoi.empty,
      headerResp := fun _ => Except.ok [],
      litemsResp := fun _ => Except.ok [],
      summaryResp := fun _ => Except.ok [] } rfl).2.2.2.1

/-- C6: each of the four reasoning-service-calling stages degrades a
structured-output parse failure into an absent or empty result carried on its
stream event, and the stream still contains all six stages in order. -/
theorem c6_parse_failure_degrades (env : Env) :
    (env.aoiResp (pipelineTokens env) = Except.error () →
      pipelineAoi env = Aoi.empty ∧
      ("decide_aoi", StageOut.aoiOut Aoi.empty) ∈ run_agent_stream env) ∧
    (∀ area, (pipelineAoi env).header_area = some area →
      env.headerResp (filter_ocr_data_by_bbox (pipelineTokens env)
        (some area)) = Except.error () →
      pipelineHeader env = none ∧
      ("extract_header_data", StageOut.headerOut none) ∈
        run_agent_stream env) ∧
    (∀ area, (pipelineAoi env).line_items_area = some area →
      env.litemsResp (filter_ocr_data_by_bbox (pipelineTokens env)
        (some area)) = Except.error () →
      pipelineLitems env = none ∧
      ("extract_line_items_data", StageOut.litemsOut none) ∈
        run_agent_stream env) ∧
    (∀ area, (pipelineAoi env).summary_area = some area →
      env.summaryResp (filter_ocr_data_by_bbox (pipelineTokens env)
        (some area)) = Except.error () →
      pipelineSummary env = none ∧
      ("extract_summary_data", StageOut.summaryOut none) ∈
        run_agent_stream env) ∧
    (run_agent_stream env).map Prod.fst = stage_names := by
  refine ⟨?_, ?_, ?_, ?_, ?_⟩
  · intro he
    have ha : pipelineAoi env = Aoi.empty := by
      unfold pipelineAoi
      rw [he]
    refine ⟨ha, ?_⟩
    rw [run_agent_stream_spec, ← ha]
    simp
  · intro area harea he
    have hh : pipelineHeader env = none := by
      unfold pipelineHeader
      rw [harea]
      show (match env.headerResp (filter_ocr_data_by_bbox (pipelineTokens env)
          (some area)) with
        | Except.ok d => some d
        | Except.error _ => none) = none
      rw [he]
    refine ⟨hh, ?_⟩
    rw [run_agent_stream_spec, ← hh]
    simp
  · intro area harea he
    have hh : pipelineLitems env = none := by
      unfold pipelineLitems
      rw [harea]
      show (match env.litemsResp (filter_ocr_data_by_bbox (pipelineTokens env)
          (some area)) with
        | Except.ok d => some d
        | Except.error _ => none) = none
      rw [he]
    refine ⟨hh, ?_⟩
    rw [run_agent_stream_spec, ← hh]
    simp
  · intro area harea he
    have hh : pipelineSummary env = none := by
      unfold pipelineSummary
      rw [harea]
      show (match env.summaryResp (filter_ocr_data_by_bbox (pipelineTokens env)
          (some area)) with
        | Except.ok d => some d
        | Except.error _ => none) = none
      rw [he]
    refine ⟨hh, ?_⟩
    rw [run_agent_stream_spec, ← hh]
    simp
  · rw [run_agent_stream_spec]
    rfl

/-- Witness for c6_parse_failure_degrades: with a locator whose output fails
to parse, the concrete run substitutes the empty areas record. -/
theorem c6_parse_failure_degrades_witness :
    pipelineAoi
      { ocrRows := [], aoiResp := fun _ => Except.error (),
        headerResp := fun _ => Except.error (),
        litemsResp := fun _ => Except.error (),
        summaryResp := fun _ => Except.error () } = Aoi.empty :=
  ((c6_parse_failure_degrades _).1 rfl).1

/-- JSON escaping of one character, the cases json.dumps produces for the
characters appearing here. -/
def jescapeChar (c : Char) : String :=
  if c = '\\' then "\\\\"
  else if c = '"' then "\\\""
  else if c = '\n' then "\\n"
  else if c = '\t' then "\\t"
  else if c = '\r' then "\\r"
  else c.toString

/-- JSON escaping of a string. -/
def jescape (s : String) : String :=
  String.join (s.data.map jescapeChar)

mutual

/-- json.dumps with its default separators, on the modeled JSON values. -/
def jdump : JVal → String
  | .null => "null"
  | .bool true => "true"
  | .bool false => "false"
  | .num n => toString n
  | .str s => "\"" ++ jescape s ++ "\""
  | .arr xs => "[" ++ jdumpList xs ++ "]"
  | .obj kvs => "\x7b" ++ jdumpObj kvs ++ "\x7d"

/-- Comma-joined serialization of array elements. -/
def jdumpList : List JVal → String
  | [] => ""
  | [x] => jdump x
  | x :: xs => jdump x ++ ", " ++ jdumpList xs

/-- Comma-joined serialization of object entries. -/
def jdumpObj : List (String × JVal) → String
  | [] => ""
  | [(k, v)] => "\"" ++ jescape k ++ "\": " ++ jdump v
  | (k, v) :: kvs =>
      "\"" ++ jescape k ++ "\": " ++ jdump v ++ ", " ++ jdumpObj kvs

end

/-- One server-sent event as written by main.py line 63: the data prefix,
the JSON payload, and the blank-line terminator. -/
def sse_event (payload : String) : String :=
  "data: " ++ payload ++ "\n\n"

/-- The event_generator loop of extract_invoice_data in main.py lines 48 to
66. The underlying stage generator is modeled by its trace: the chunks it
yields, followed by either normal exhaustion (none) or an error with the
given textual message (some msg), raised while the next chunk is pulled —
this covers any error origin, including a malformed upload failing inside
the OCR stage on the first pull. Each pulled chunk becomes one data event;
an error becomes one final event whose payload is the serialized one-key
error object, and the loop breaks. -/
def event_generator : List JVal → Option String → List String
  | [], none => []
  | [], some msg =>
      [sse_event (jdump (JVal.obj [("error", JVal.str msg)]))]
  | chunk :: rest, err =>
      sse_event (jdump chunk) :: event_generator rest err

/-- C7: whenever pulling the next stage output raises an error, the service
emits every already-produced event unchanged, then exactly one final event
whose JSON payload is the one-field object holding the error message under
the error key, and the stream ends with no further events and no retry; on
normal exhaustion no error event is emitted. -/
lemma event_generator_error (chunks : List JVal) (msg : String) :
    event_generator chunks (some msg) =
      chunks.map (fun c => sse_event (jdump c)) ++
        [sse_event (jdump (JVal.obj [("error", JVal.str msg)]))] := by
  induction chunks with
  | nil => rfl
  | cons c rest ih =>
      rw [event_generator, ih, List.map_cons, List.cons_append]

lemma event_generator_done (chunks : List JVal) :
    event_generator chunks none =
      chunks.map (fun c => sse_event (jdump c)) := by
  induction chunks with
  | nil => rfl
  | cons c rest ih =>
      rw [event_generator, ih, List.map_cons]

theorem c7_stream_error_event (chunks : List JVal) (msg : String) :
    event_generator chunks (some msg) =
      chunks.map (fun c => sse_event (jdump c)) ++
        [sse_event (jdump (JVal.obj [("error", JVal.str msg)]))] ∧
    (event_generator chunks (some msg)).length = chunks.length + 1 ∧
    dget [("error", JVal.str msg)] "error" = JVal.str msg ∧
    event_generator chunks none = chunks.map (fun c => sse_event (jdump c)) := by
  refine ⟨event_generator_error chunks msg, ?_, ?_,
    event_generator_done chunks⟩
  · rw [event_generator_error chunks msg]
    simp
  · rfl

/-- validate_config from config.py lines 7 to 19: flags the required
variable when its value is falsy (unset or the empty string) or equal to the
placeholder, and raises a configuration error naming the flagged variables
and the expected environment-file location. The process environment is
modeled as a partial map from variable names to values. -/
def validate_config (getenv : String → Option String) : Except String Unit :=
  let required_vars : List String := ["GOOGLE_API_KEY"]
  let missing_vars := required_vars.filter (fun v =>
    (match getenv v with
     | none => true
     | some s => s == "") || getenv v == some "YOUR_API_KEY_HERE")
  if missing_vars.isEmpty then Except.ok ()
  else Except.error ("Missing or invalid environment variables: " ++
    String.intercalate ", " missing_vars ++
    ". Please check your backend/.env file.")

/-- The one configuration error message this program can raise: only one
variable is required, so the enumeration is always this string, which names
GOOGLE_API_KEY and points at backend/.env. -/
def config_error_message : String :=
  "Missing or invalid environment variables: GOOGLE_API_KEY. Please check your backend/.env file."

lemma config_error_message_built :
    "Missing or invalid environment variables: " ++
      String.intercalate ", " ["GOOGLE_API_KEY"] ++
      ". Please check your backend/.env file." = config_error_message := rfl

/-- GEMINI_MODEL_NAME from config.py line 23: the environment value, or the
default model name when the variable is unset. -/
def GEMINI_MODEL_NAME (getenv : String → Option String) : String :=
  (getenv "GEMINI_MODEL_NAME").getD "gemini-2.5-flash"

/-- C8 counterexample: with GOOGLE_API_KEY set to the empty string — a value
that is set and differs from the placeholder — validation still fails, so
the claim that validation fails only when the variable is unset or equals
the placeholder is false at this input. -/
theorem c8_counterexample :
    validate_config
      (fun k => if k = "GOOGLE_API_KEY" then some "" else none) =
      Except.error config_error_message ∧
    (fun k => if k = "GOOGLE_API_KEY" then some "" else none)
      "GOOGLE_API_KEY" = some "" ∧
    ("" : String) ≠ "YOUR_API_KEY_HERE" :=
  ⟨rfl, rfl, by decide⟩

/-- C8 as amended: validation fails — with the error naming GOOGLE_API_KEY
and pointing at backend/.env — iff GOOGLE_API_KEY is unset, set to the empty
string, or set to the placeholder; with any other value validation succeeds;
and GEMINI_MODEL_NAME defaults to gemini-2.5-flash when unset. -/
theorem c8_config_validation (getenv : String → Option String) :
    (validate_config getenv = Except.error config_error_message ↔
      (getenv "GOOGLE_API_KEY" = none ∨ getenv "GOOGLE_API_KEY" = some "" ∨
       getenv "GOOGLE_API_KEY" = some "YOUR_API_KEY_HERE")) ∧
    ((getenv "GOOGLE_API_KEY" ≠ none ∧ getenv "GOOGLE_API_KEY" ≠ some "" ∧
      getenv "GOOGLE_API_KEY" ≠ some "YOUR_API_KEY_HERE") →
      validate_config getenv = Except.ok ()) ∧
    (getenv "GEMINI_MODEL_NAME" = none →
      GEMINI_MODEL_NAME getenv = "gemini-2.5-flash") := by
  refine ⟨?_, ?_, ?_⟩
  · cases hg : getenv "GOOGLE_API_KEY" with
    | none =>
        simp [validate_config, hg, config_error_message_built]
    | some s =>
        by_cases hs : s = ""
        · subst hs
          simp [validate_config, hg, config_error_message_built]
        · by_cases hp : s = "YOUR_API_KEY_HERE"
          · subst hp
            simp [validate_config, hg, config_error_message_built]
          · simp [validate_config, hg, config_error_message_built, hs, hp]
  · rintro ⟨h1, h2, h3⟩
    cases hg : getenv "GOOGLE_API_KEY" with
    | none => exact absurd hg h1
    | some s =>
        have hs : s ≠ "" := by
          intro hc
          exact h2 (by rw [hg, hc])
        have hp : s ≠ "YOUR_API_KEY_HERE" := by
          intro hc
          exact h3 (by rw [hg, hc])
        simp [validate_config, hg, hs, hp]
  · intro hg
    rw [GEMINI_MODEL_NAME, hg]
    rfl

/-- Witness for c8_config_validation: with a concrete valid key and the model
variable unset, validation succeeds and the model name defaults. -/
theorem c8_config_validation_witness :
    validate_config
      (fun k => if k = "GOOGLE_API_KEY" then some "k" else none) =
      Except.ok () ∧
    GEMINI_MODEL_NAME
      (fun k => if k = "GOOGLE_API_KEY" then some "k" else none) =
      "gemini-2.5-flash" := by
  have hcv := c8_config_validation
    (fun k => if k = "GOOGLE_API_KEY" then some "k" else none)
  exact ⟨hcv.2.1 ⟨by simp, by simp, by simp⟩, hcv.2.2 rfl⟩

end InvoiceAgent
